import Mathlib

/-!
Shallow embedding of the Mouza Map Calculator geometry / interaction core
(`src/components/MapCalculator.jsx`).  JavaScript numbers are modelled as
real numbers; `Math.sqrt` and `Math.hypot` are `Real.sqrt`; a JS `null`
scale is `Option.none`.
-/

namespace MouzaMap

open Classical

noncomputable section

/-- A point `{x, y}` in world (unscaled, unpanned) space. -/
structure Point where
  x : ℝ
  y : ℝ

/-- `SHOTOK_SQ_FT` constant from the source. -/
def SHOTOK_SQ_FT : ℝ := 435.6

/-- `KATHA_SQ_FT` constant from the source. -/
def KATHA_SQ_FT : ℝ := 720

/-- `Math.sqrt(Math.pow(p2.x - p1.x, 2) + Math.pow(p2.y - p1.y, 2))`. -/
def pixelDist (p1 p2 : Point) : ℝ :=
  Real.sqrt ((p2.x - p1.x) ^ 2 + (p2.y - p1.y) ^ 2)

/-- Default point used for (never-reached) out-of-range list indexing. -/
def origin : Point := ⟨0, 0⟩

/-- The summand of the shoelace loop: `p1.x * p2.y - p2.x * p1.y`. -/
def cross (p1 p2 : Point) : ℝ := p1.x * p2.y - p2.x * p1.y

/-- Vertex `i` of the list (JS `points[i]`, always in range where used). -/
def vtx (points : List Point) (i : ℕ) : Point := points.getD i origin

/-- The shoelace accumulation loop of `calculatePolygonData`:
`for i: area += p1.x*p2.y - p2.x*p1.y` with `p1 = points[i]`,
`p2 = points[(i+1) % n]`. -/
def shoelaceSum (points : List Point) : ℝ :=
  (List.range points.length).foldl
    (fun acc i => acc + cross (vtx points i) (vtx points ((i + 1) % points.length))) 0

/-- The side-length loop of `calculatePolygonData`: for each `i`,
`pixelDist(points[i], points[(i+1) % n]) / scale`. -/
def sideLengths (points : List Point) (scale : ℝ) : List ℝ :=
  (List.range points.length).map
    (fun i => pixelDist (vtx points i) (vtx points ((i + 1) % points.length)) / scale)

/-- The record returned by `calculatePolygonData`. -/
structure PolygonData where
  sqft : ℝ
  shotok : ℝ
  katha : ℝ
  lengths : List ℝ

/-- `calculatePolygonData(points, scale)`.  The JS guard is
`points.length < 3 || !scale`; `!scale` is true exactly for a `null`
(absent) or zero scale, so a nonzero scale of either sign passes. -/
def calculatePolygonData (points : List Point) (scale : Option ℝ) : Option PolygonData :=
  match scale with
  | Option.none => Option.none
  | Option.some s =>
    if points.length < 3 ∨ s = 0 then Option.none
    else
      let pixelArea := |shoelaceSum points / 2|
      let sqft := pixelArea / (s * s)
      Option.some
        { sqft := sqft
          shotok := sqft / SHOTOK_SQ_FT
          katha := sqft / KATHA_SQ_FT
          lengths := sideLengths points s }

/-- Spec-side formulation of the area: `|Σ (x_i·y_{i+1} − x_{i+1}·y_i)| / 2`
with indices mod `n`, written as a `Finset` sum (to be compared with the
source's fold). -/
def shoelaceSpecArea (points : List Point) : ℝ :=
  |∑ i in Finset.range points.length,
      ((vtx points i).x * (vtx points ((i + 1) % points.length)).y -
        (vtx points ((i + 1) % points.length)).x * (vtx points i).y)| / 2

/-- `Math.hypot dx dy`. -/
def hypot (dx dy : ℝ) : ℝ := Real.sqrt (dx ^ 2 + dy ^ 2)

/-- `SNAP_THRESHOLD` of `addPointerByPos` / `handlePointDragEnd` (stage-space units). -/
def SNAP_THRESHOLD : ℝ := 5

/-- The `drawing_plot` branch of `addPointerByPos`: if at least one vertex
exists and the new position is within `SNAP_THRESHOLD` of the first vertex,
the appended point takes exactly the first vertex's coordinates. -/
def addPlotPoint (prev : List Point) (pos : Point) : List Point :=
  if 0 < prev.length then
    let first := vtx prev 0
    if hypot (pos.x - first.x) (pos.y - first.y) ≤ SNAP_THRESHOLD then
      prev ++ [⟨first.x, first.y⟩]
    else prev ++ [pos]
  else prev ++ [pos]

/-- `handlePointDragEnd(e, index)`: replace vertex `index` with the drop
position, snapping onto vertex 0 when `index ≠ 0` and the drop lands within
`SNAP_THRESHOLD` of vertex 0. -/
def handlePointDragEnd (points : List Point) (index : ℕ) (pos : Point) : List Point :=
  if index ≠ 0 ∧ 0 < points.length then
    let first := vtx points 0
    if hypot (pos.x - first.x) (pos.y - first.y) ≤ SNAP_THRESHOLD then
      points.set index ⟨first.x, first.y⟩
    else points.set index pos
  else points.set index pos

/-- The `mode` state values (`'none' | 'calibrating' | 'manual_scale' |
'drawing_plot'`). -/
inductive Mode
  | none
  | calibrating
  | manual_scale
  | drawing_plot
deriving DecidableEq

/-- The component state cells touched by the handlers under study. -/
structure AppState where
  mode : Mode
  scale : Option ℝ
  showManualScale : Bool
  calibrationLine : List ℝ
  isDrawing : Bool
  plotPoints : List Point
  results : Option PolygonData
  isPlotFinished : Bool
  reportImage : Bool
  snapHint : Bool
  isModalOpen : Bool

/-- `clearPlot()`: empties the vertex list and discards results, finished
flag and captured report image. -/
def clearPlot (st : AppState) : AppState :=
  { st with plotPoints := [], results := Option.none, isPlotFinished := false,
            reportImage := false }

/-- The calibrate button (`'স্কেল আঁকুন'`) `onClick`: enter calibrating mode,
hide manual-scale entry, `clearPlot()`, stop drawing, clear the line. -/
def calibrateButtonClick (st : AppState) : AppState :=
  { clearPlot st with mode := Mode.calibrating, showManualScale := false,
                      isDrawing := false, calibrationLine := [] }

/-- The scale-badge `Change` button `onClick`: enter calibrating mode and
clear the line, but (unlike the calibrate button) without `clearPlot()`. -/
def changeButtonClick (st : AppState) : AppState :=
  { st with mode := Mode.calibrating, calibrationLine := [], isDrawing := false }

/-- `_handleModalSubmit(realDistance)`.  `Number.isFinite` holds of every
real number, so only `realDistance <= 0` reaches the error branch, which
mutates nothing (the modal stays open).  The returned flag is `true` when
the scale was set.  The line is read positionally as `[x1, y1, x2, y2]`. -/
def handleModalSubmit (st : AppState) (realDistance : ℝ) : AppState × Bool :=
  if realDistance ≤ 0 then (st, false)
  else
    let x1 := st.calibrationLine.getD 0 0
    let y1 := st.calibrationLine.getD 1 0
    let x2 := st.calibrationLine.getD 2 0
    let y2 := st.calibrationLine.getD 3 0
    let pixelDistance := Real.sqrt ((x2 - x1) ^ 2 + (y2 - y1) ^ 2)
    ({ st with scale := Option.some (pixelDistance / realDistance),
               isModalOpen := false,
               calibrationLine := [] }, true)

/-- Parsed JSON values as seen by `handleLoadChange` (`jundef` models the
JavaScript `undefined` produced by a missing property). -/
inductive Json
  | jnum (v : ℝ)
  | jstr (s : String)
  | jbool (b : Bool)
  | jnull
  | jundef
  | jarr (elems : List Json)
  | jobj (fields : List (String × Json))

/-- JavaScript truthiness of a JSON value. -/
def Json.truthy : Json → Prop
  | Json.jnum v => v ≠ 0
  | Json.jstr s => s ≠ ""
  | Json.jbool b => b = true
  | Json.jnull => False
  | Json.jundef => False
  | Json.jarr _ => True
  | Json.jobj _ => True

/-- `typeof x === 'object'` (true for objects, arrays and `null`). -/
def Json.isObjectType : Json → Bool
  | Json.jnull => true
  | Json.jarr _ => true
  | Json.jobj _ => true
  | _ => false

/-- Property access `x[key]` (yields `undefined` when absent or when the
receiver has no such property). -/
def Json.getField : Json → String → Json
  | Json.jobj fields, key => (fields.lookup key).getD Json.jundef
  | _, _ => Json.jundef

/-- `typeof p.x === 'number' && typeof p.y === 'number'` for one element of
`plotPoints` (`false` also covers the thrown-and-caught property access on a
`null` element). -/
def validPointElem : Json → Bool
  | Json.jobj fields =>
      (match fields.lookup "x" with
        | Option.some (Json.jnum _) => true
        | _ => false) &&
      (match fields.lookup "y" with
        | Option.some (Json.jnum _) => true
        | _ => false)
  | _ => false

/-- `typeof v === 'number' && v > 0`. -/
def Json.isPositiveNum : Json → Prop
  | Json.jnum v => 0 < v
  | _ => False

/-- Numeric value of a JSON number (never applied to anything else on the
reachable paths). -/
def jsonNumVal : Json → ℝ
  | Json.jnum v => v
  | _ => 0

/-- The loaded `{x, y}` element as stored into `plotPoints`. -/
def toPoint (p : Json) : Point :=
  ⟨jsonNumVal (p.getField "x"), jsonNumVal (p.getField "y")⟩

/-- `Array.isArray`. -/
def Json.isArr : Json → Bool
  | Json.jarr _ => true
  | _ => false

/-- The elements of a JSON array (only read behind an `isArr` guard). -/
def Json.arrElems : Json → List Json
  | Json.jarr elems => elems
  | _ => []

/-- `handleLoadChange` after `JSON.parse` succeeded: the three validation
`throw`s in source order, then the state updates.  The returned flag is
`true` on success; every rejection happens before any state update. -/
def handleLoadChange (st : AppState) (doc : Json) : AppState × Bool :=
  if ¬ doc.truthy ∨ doc.isObjectType = false then (st, false)
  else if (doc.getField "plotPoints").isArr = false ∨
      (doc.getField "plotPoints").arrElems.any (fun p => !validPointElem p) = true then
    (st, false)
  else if (doc.getField "scale").truthy ∧ ¬ (doc.getField "scale").isPositiveNum then
    (st, false)
  else
    ({ st with
        scale := if (doc.getField "scale").truthy
          then Option.some (jsonNumVal (doc.getField "scale")) else st.scale,
        plotPoints := (doc.getField "plotPoints").arrElems.map toPoint,
        isPlotFinished := false,
        results := Option.none,
        mode := Mode.drawing_plot,
        calibrationLine := [],
        snapHint := false }, true)

/-- The `clamp` helper: `Math.max(min, Math.min(max, val))`. -/
def clamp (val lo hi : ℝ) : ℝ := max lo (min hi val)

/-- The zoom produced by the `handleWheel` RAF flush:
`clamp(oldScale * 1.0015^(-delta), 0.1, 10)`. -/
def wheelZoomUpdate (oldScale delta : ℝ) : ℝ :=
  clamp (oldScale * Real.rpow 1.0015 (-delta)) 0.1 10

/-- The zoom produced by one pinch `onTouchMove` update: sub-half-pixel
distance jitter is ignored, otherwise
`clamp(start.scale * (newDist / start.distance), 0.1, 10)` (guarded by
`start.distance > 0`). -/
def pinchMoveZoom (startDistance startScale lastDist newDist oldZoom : ℝ) : ℝ :=
  if |newDist - lastDist| < 0.5 then oldZoom
  else if 0 < startDistance then
    clamp (startScale * (newDist / startDistance)) 0.1 10
  else oldZoom

/-- `TAP_GRACE_MS` constant. -/
def TAP_GRACE_MS : ℝ := 200

/-- `TAP_MIN_MS` constant. -/
def TAP_MIN_MS : ℝ := 50

/-- `touchSessionRef` contents. -/
structure TouchSession where
  active : Bool
  single : Bool
  moved : Bool
  startClientX : ℝ
  startClientY : ℝ
  startTime : ℝ

/-- The refs driving tap-vs-pinch disambiguation. -/
structure TouchState where
  session : TouchSession
  blockTap : Bool
  isPinching : Bool
  pinchLastStart : ℝ

/-- Initial ref values. -/
def initialTouchState : TouchState :=
  ⟨⟨false, true, false, 0, 0, 0⟩, false, false, 0⟩

/-- `onTouchStart` with one finger: open a session, reset the pinch marker. -/
def touchStartSingle (ts : TouchState) (t cx cy : ℝ) : TouchState :=
  { ts with session := ⟨true, true, false, cx, cy, t⟩, pinchLastStart := 0 }

/-- `onTouchStart` with two fingers: mark pinch, block taps, void the session. -/
def touchStartPinch (ts : TouchState) (t : ℝ) : TouchState :=
  { ts with isPinching := true, blockTap := true, pinchLastStart := t,
            session := { ts.session with active := false } }

/-- `onTouchMove` with two fingers while pinching: re-assert the tap block. -/
def touchMovePinch (ts : TouchState) : TouchState := { ts with blockTap := true }

/-- `onTouchMove` with a single finger.  The `moved` flag (movement beyond 6
pixels) is set only inside the `mode === 'calibrating' && isDrawing` branch;
the `drawing_plot` branch only updates the snap hint. -/
def touchMoveSingle (ts : TouchState) (mode : Mode) (isDrawing : Bool) (cx cy : ℝ) : TouchState :=
  if mode = Mode.calibrating ∧ isDrawing = true then
    if ts.session.active = true ∧ ts.session.single = true ∧
        hypot (cx - ts.session.startClientX) (cy - ts.session.startClientY) > 6 then
      { ts with session := { ts.session with moved := true } }
    else ts
  else ts

/-- `onTouchEnd` with fewer than two remaining fingers: decide whether the
session counts as a tap; the forwarded tap is the start position sent through
the screen-to-world transform.  Returns the updated refs and the forwarded
world position, if any. -/
def touchEnd (ts : TouchState) (now rectLeft rectTop stagePosX stagePosY stageScale : ℝ) :
    TouchState × Option Point :=
  let ts1 : TouchState := { ts with isPinching := false }
  if ts.blockTap = true then
    ({ ts1 with blockTap := false, session := { ts1.session with active := false } },
      Option.none)
  else if ts.session.active = true ∧ ts.session.single = true ∧ ts.session.moved = false then
    let startTime := if ts.session.startTime = 0 then now else ts.session.startTime
    let dur := now - startTime
    let pinchWithinWindow :=
      ts.pinchLastStart ≥ startTime ∧ ts.pinchLastStart - startTime ≤ TAP_GRACE_MS
    if pinchWithinWindow ∨ dur < TAP_MIN_MS then
      ({ ts1 with session := { ts1.session with active := false } }, Option.none)
    else
      let localX := ts.session.startClientX - rectLeft
      let localY := ts.session.startClientY - rectTop
      ({ ts1 with session := { ts1.session with active := false } },
        Option.some ⟨(localX - stagePosX) / stageScale, (localY - stagePosY) / stageScale⟩)
  else ({ ts1 with session := { ts1.session with active := false } }, Option.none)

/-- `SideLengthsList`: the listed sides, `lengths.slice(0, -1)`. -/
def displayedSides (lengths : List ℝ) : List ℝ := lengths.dropLast

/-- `SideLengthsList`: the perimeter,
`lengths.slice(0, -1).reduce((a, b) => a + b, 0)`. -/
def displayedPerimeter (lengths : List ℝ) : ℝ := lengths.dropLast.foldl (· + ·) 0

/-- The test square `(0,0),(10,0),(10,10),(0,10)`. -/
def sqPoints : List Point := [⟨0, 0⟩, ⟨10, 0⟩, ⟨10, 10⟩, ⟨0, 10⟩]

/-- A state holding a fixed calibration line of pixel length 330. -/
def calibSt : AppState :=
  ⟨Mode.none, Option.none, false, [0, 0, 330, 0], false, [], Option.none, false, false,
    false, true⟩

/-- A rectangle of raw pixel shoelace area 9000. -/
def rect9000 : List Point := [⟨0, 0⟩, ⟨150, 0⟩, ⟨150, 60⟩, ⟨0, 60⟩]

/-- A rectangle of pixel area `435.6`. -/
def shotokRect : List Point := [⟨0, 0⟩, ⟨4.356, 0⟩, ⟨4.356, 100⟩, ⟨0, 100⟩]

/-- A rectangle of pixel area `720`. -/
def kathaRect : List Point := [⟨0, 0⟩, ⟨7.2, 0⟩, ⟨7.2, 100⟩, ⟨0, 100⟩]

/-- A state with a calibrated scale and one plotted vertex. -/
def baseSt : AppState :=
  ⟨Mode.none, Option.some 2, false, [], false, [⟨1, 1⟩], Option.none, false, false,
    false, false⟩

/-- A finished-polygon state with vertices, results and a drawn line. -/
def plotSt : AppState :=
  ⟨Mode.none, Option.some 2, false, [1, 2, 3, 4], false, [⟨1, 1⟩, ⟨2, 2⟩, ⟨3, 3⟩],
    Option.some ⟨1, 1, 1, []⟩, true, true, false, false⟩

/-- A load document whose `scale` is present but `0`. -/
def zeroScaleDoc : Json :=
  Json.jobj [("plotPoints", Json.jarr []), ("scale", Json.jnum 0)]

/-- The spec's invalid-load example: `plotPoints: [{"x":1}]` (missing `y`). -/
def missingYDoc : Json :=
  Json.jobj [("plotPoints", Json.jarr [Json.jobj [("x", Json.jnum 1)]])]

/-- A single-finger touch session that starts at client `(0,0)` at time 1000
and moves to `(100,100)` while in `drawing_plot` mode. -/
def dragTapScenario : TouchState :=
  touchMoveSingle (touchStartSingle initialTouchState 1000 0 0) Mode.drawing_plot false 100 100

/-- A clean single-finger session started at client `(5,7)` at time 1000. -/
def validTapState : TouchState := ⟨⟨true, true, false, 5, 7, 1000⟩, false, false, 0⟩


lemma foldl_add_eq_sum (f : ℕ → ℝ) (n : ℕ) :
    (List.range n).foldl (fun acc i => acc + f i) 0 = ∑ i in Finset.range n, f i := by
  induction n with
  | zero => simp
  | succ n ih =>
    rw [List.range_succ, List.foldl_append, ih, Finset.sum_range_succ]
    simp

lemma shoelaceSum_eq_sum (points : List Point) :
    shoelaceSum points =
      ∑ i in Finset.range points.length,
        cross (vtx points i) (vtx points ((i + 1) % points.length)) := by
  exact foldl_add_eq_sum _ _

lemma cross_skew (p q : Point) : cross p q = -cross q p := by
  simp only [cross]
  ring

lemma vtx_reverse (points : List Point) (i : ℕ) (h : i < points.length) :
    vtx points.reverse i = vtx points (points.length - 1 - i) := by
  unfold vtx
  rw [List.getD_eq_getElem _ _ (by simpa using h),
    List.getD_eq_getElem _ _ (by omega), List.getElem_reverse]

lemma sum_cyc_split (n : ℕ) (h : 1 ≤ n) (F : ℕ → ℕ → ℝ) :
    ∑ i in Finset.range n, F i ((i + 1) % n) =
      (∑ i in Finset.range (n - 1), F i (i + 1)) + F (n - 1) 0 := by
  obtain ⟨m, rfl⟩ : ∃ m, n = m + 1 := ⟨n - 1, by omega⟩
  rw [Finset.sum_range_succ]
  simp only [Nat.add_sub_cancel]
  congr 1
  · refine Finset.sum_congr rfl (fun i hi => ?_)
    rw [Nat.mod_eq_of_lt (by simp only [Finset.mem_range] at hi; omega)]
  · rw [Nat.mod_self]

lemma shoelaceSum_split (points : List Point) (h : 1 ≤ points.length) :
    shoelaceSum points =
      (∑ i in Finset.range (points.length - 1), cross (vtx points i) (vtx points (i + 1))) +
        cross (vtx points (points.length - 1)) (vtx points 0) := by
  rw [shoelaceSum_eq_sum]
  exact sum_cyc_split points.length h (fun i j => cross (vtx points i) (vtx points j))

/-- Reversing the vertex order negates the raw shoelace sum, so the absolute
area is unchanged. -/
lemma shoelaceSum_reverse (points : List Point) (h : 1 ≤ points.length) :
    shoelaceSum points.reverse = -shoelaceSum points := by
  have hn : points.reverse.length = points.length := List.length_reverse points
  rw [shoelaceSum_split points h, shoelaceSum_split points.reverse (by omega)]
  simp only [hn]
  have hlast : cross (vtx points.reverse (points.length - 1)) (vtx points.reverse 0) =
      -cross (vtx points (points.length - 1)) (vtx points 0) := by
    rw [vtx_reverse points (points.length - 1) (by omega), vtx_reverse points 0 (by omega),
      show points.length - 1 - (points.length - 1) = 0 by omega, Nat.sub_zero, cross_skew]
  have hsum : (∑ i in Finset.range (points.length - 1),
      cross (vtx points.reverse i) (vtx points.reverse (i + 1))) =
      -(∑ i in Finset.range (points.length - 1), cross (vtx points i) (vtx points (i + 1))) := by
    have hterm : ∀ i ∈ Finset.range (points.length - 1),
        cross (vtx points.reverse i) (vtx points.reverse (i + 1)) =
          -((fun j => cross (vtx points j) (vtx points (j + 1))) (points.length - 1 - 1 - i)) := by
      intro i hi
      simp only [Finset.mem_range] at hi
      have e1 : points.length - 1 - (i + 1) = points.length - 1 - 1 - i := by omega
      have e2 : points.length - 1 - i = (points.length - 1 - 1 - i) + 1 := by omega
      rw [vtx_reverse points i (by omega), vtx_reverse points (i + 1) (by omega), cross_skew,
        e1, e2]
    rw [Finset.sum_congr rfl hterm, Finset.sum_neg_distrib,
      Finset.sum_range_reflect (fun j => cross (vtx points j) (vtx points (j + 1)))
        (points.length - 1)]
  rw [hsum, hlast]
  ring

/-- Unconditional unfolding of `calculatePolygonData` when the guard passes. -/
lemma calculatePolygonData_eq (points : List Point) (s : ℝ)
    (h3 : 3 ≤ points.length) (hs : s ≠ 0) :
    calculatePolygonData points (Option.some s) = Option.some
      { sqft := |shoelaceSum points / 2| / (s * s)
        shotok := |shoelaceSum points / 2| / (s * s) / SHOTOK_SQ_FT
        katha := |shoelaceSum points / 2| / (s * s) / KATHA_SQ_FT
        lengths := sideLengths points s } := by
  simp only [calculatePolygonData]
  rw [if_neg]
  push_neg
  exact ⟨by omega, hs⟩

/-- Helper to evaluate `pixelDist` on concrete inputs. -/
lemma pixelDist_eval (p q : Point) (r : ℝ) (hr : 0 ≤ r)
    (h : (q.x - p.x) ^ 2 + (q.y - p.y) ^ 2 = r ^ 2) : pixelDist p q = r := by
  rw [pixelDist, h, Real.sqrt_sq hr]

/-- Helper to evaluate `hypot` on concrete inputs. -/
lemma hypot_eval (dx dy r : ℝ) (hr : 0 ≤ r) (h : dx ^ 2 + dy ^ 2 = r ^ 2) :
    hypot dx dy = r := by
  rw [hypot, h, Real.sqrt_sq hr]

lemma sideLengths_length (points : List Point) (s : ℝ) :
    (sideLengths points s).length = points.length := by
  simp [sideLengths]

lemma sideLengths_getD (points : List Point) (s : ℝ) (i : ℕ) (h : i < points.length) :
    (sideLengths points s).getD i 0 =
      pixelDist (vtx points i) (vtx points ((i + 1) % points.length)) / s := by
  unfold sideLengths
  rw [List.getD_eq_getElem _ _ (by simpa using h)]
  simp

lemma calculatePolygonData_short (points : List Point) (s : ℝ) (h : points.length < 3) :
    calculatePolygonData points (Option.some s) = Option.none := by
  simp only [calculatePolygonData]
  rw [if_pos (Or.inl h)]

lemma calculatePolygonData_zero (points : List Point) :
    calculatePolygonData points (Option.some 0) = Option.none := by
  simp [calculatePolygonData]

lemma sq_length : sqPoints.length = 4 := by
  simp [sqPoints]

lemma sq_shoelace : shoelaceSum sqPoints = 200 := by
  simp only [shoelaceSum, sqPoints, List.length_cons, List.length_nil]
  norm_num [List.range_succ, cross, vtx, List.getD_cons_zero, List.getD_cons_succ]

lemma sq_sides (s : ℝ) : sideLengths sqPoints s = [10 / s, 10 / s, 10 / s, 10 / s] := by
  have h1 : pixelDist ⟨0, 0⟩ ⟨10, 0⟩ = 10 := pixelDist_eval _ _ 10 (by norm_num) (by norm_num)
  have h2 : pixelDist ⟨10, 0⟩ ⟨10, 10⟩ = 10 := pixelDist_eval _ _ 10 (by norm_num) (by norm_num)
  have h3 : pixelDist ⟨10, 10⟩ ⟨0, 10⟩ = 10 := pixelDist_eval _ _ 10 (by norm_num) (by norm_num)
  have h4 : pixelDist ⟨0, 10⟩ ⟨0, 0⟩ = 10 := pixelDist_eval _ _ 10 (by norm_num) (by norm_num)
  simp only [sideLengths, sqPoints, List.length_cons, List.length_nil]
  norm_num [List.range_succ, vtx, List.getD_cons_zero, List.getD_cons_succ, h1, h2, h3, h4]

/-- C1: for every point list of length at least 3 and every scale greater
than 0, the measurement computes the pixel area by the shoelace formula
`|Σ (x_i·y_{i+1} − x_{i+1}·y_i)| / 2` (indices mod `n`) and the square-feet
result as that pixel area divided by the scale squared; the result is
invariant under reversing the traversal direction; and for the square
`(0,0),(10,0),(10,10),(0,10)` with scale 1 the area is exactly 100. -/
theorem c1_shoelace_area :
    (∀ (points : List Point) (s : ℝ), 3 ≤ points.length → 0 < s →
      ∃ d dr : PolygonData,
        calculatePolygonData points (Option.some s) = Option.some d ∧
        d.sqft = shoelaceSpecArea points / (s * s) ∧
        calculatePolygonData points.reverse (Option.some s) = Option.some dr ∧
        dr.sqft = d.sqft) ∧
    (∃ d : PolygonData,
      calculatePolygonData sqPoints (Option.some 1) = Option.some d ∧ d.sqft = 100) := by
  constructor
  · intro points s h3 hs
    refine ⟨_, _, calculatePolygonData_eq points s h3 hs.ne', ?_,
      calculatePolygonData_eq points.reverse s (by simpa using h3) hs.ne', ?_⟩
    · show |shoelaceSum points / 2| / (s * s) = shoelaceSpecArea points / (s * s)
      unfold shoelaceSpecArea
      rw [shoelaceSum_eq_sum, abs_div, abs_two]
      simp only [cross]
    · show |shoelaceSum points.reverse / 2| / (s * s) = |shoelaceSum points / 2| / (s * s)
      rw [shoelaceSum_reverse points (by omega), neg_div, abs_neg]
  · refine ⟨_, calculatePolygonData_eq sqPoints 1 (by rw [sq_length]; norm_num) one_ne_zero, ?_⟩
    show |shoelaceSum sqPoints / 2| / (1 * 1) = 100
    rw [sq_shoelace]
    norm_num

/-- Witness for C1 at the concrete square and scale 1. -/
theorem c1_shoelace_area_witness :
    ∃ d dr : PolygonData,
      calculatePolygonData sqPoints (Option.some 1) = Option.some d ∧
      d.sqft = shoelaceSpecArea sqPoints / (1 * 1) ∧
      calculatePolygonData sqPoints.reverse (Option.some 1) = Option.some dr ∧
      dr.sqft = d.sqft :=
  c1_shoelace_area.1 sqPoints 1 (by rw [sq_length]; norm_num) one_pos

/-- C2 counterexample: `-1` is not a positive number, yet
`calculatePolygonData` on the square with scale `-1` produces a measurement
(with negative side lengths) instead of failing, because the JS guard
`!scale` only rejects a null or zero scale. -/
theorem c2_counterexample :
    ¬ (0 < (-1 : ℝ)) ∧
    ∃ d : PolygonData,
      calculatePolygonData sqPoints (Option.some (-1)) = Option.some d ∧
      d.lengths = [-10, -10, -10, -10] := by
  refine ⟨by norm_num, _,
    calculatePolygonData_eq sqPoints (-1) (by rw [sq_length]; norm_num) (by norm_num), ?_⟩
  show sideLengths sqPoints (-1) = [-10, -10, -10, -10]
  rw [sq_sides]
  norm_num

/-- C2 amended: for every point list of `n ≥ 3` vertices and every nonzero
scale (the code rejects only an absent or zero scale, not a negative one),
the side-length list has exactly `n` entries, the `i`-th being the Euclidean
pixel distance from vertex `i` to vertex `(i+1) mod n` divided by the scale,
the last being the closing edge back to vertex 0; the square with scale 1
yields four values all equal to 10; with fewer than 3 points, or with a zero
or absent scale, no measurement is produced. -/
theorem c2_side_lengths_amended :
    (∀ (points : List Point) (s : ℝ), 3 ≤ points.length → s ≠ 0 →
      ∃ d : PolygonData,
        calculatePolygonData points (Option.some s) = Option.some d ∧
        d.lengths.length = points.length ∧
        (∀ i, i < points.length → d.lengths.getD i 0 =
          pixelDist (vtx points i) (vtx points ((i + 1) % points.length)) / s) ∧
        d.lengths.getD (points.length - 1) 0 =
          pixelDist (vtx points (points.length - 1)) (vtx points 0) / s) ∧
    (∃ d : PolygonData,
      calculatePolygonData sqPoints (Option.some 1) = Option.some d ∧
      d.lengths = [10, 10, 10, 10]) ∧
    (∀ (points : List Point) (s : ℝ), points.length < 3 →
      calculatePolygonData points (Option.some s) = Option.none) ∧
    (∀ points : List Point,
      calculatePolygonData points (Option.some 0) = Option.none ∧
      calculatePolygonData points Option.none = Option.none) := by
  refine ⟨?_, ?_, calculatePolygonData_short, fun points => ⟨calculatePolygonData_zero points, rfl⟩⟩
  · intro points s h3 hs
    refine ⟨_, calculatePolygonData_eq points s h3 hs, ?_, ?_, ?_⟩
    · exact sideLengths_length points s
    · intro i hi
      exact sideLengths_getD points s i hi
    · rw [sideLengths_getD points s (points.length - 1) (by omega),
        show (points.length - 1 + 1) % points.length = 0 by
          rw [show points.length - 1 + 1 = points.length by omega, Nat.mod_self]]
  · refine ⟨_, calculatePolygonData_eq sqPoints 1 (by rw [sq_length]; norm_num) one_ne_zero, ?_⟩
    show sideLengths sqPoints 1 = [10, 10, 10, 10]
    rw [sq_sides]
    norm_num

lemma rect9000_shoelace : shoelaceSum rect9000 = 18000 := by
  simp only [shoelaceSum, rect9000, List.length_cons, List.length_nil]
  norm_num [List.range_succ, cross, vtx, List.getD_cons_zero, List.getD_cons_succ]

/-- C3: for every calibration line with both endpoints fixed and every
real-distance input `d > 0` (every real number is finite), modal submission
sets the scale to the line's Euclidean pixel length divided by `d`, closes
the modal and clears the line; for `d ≤ 0` nothing is mutated (the modal
stays open) and the error flag is reported; composing: the fixed line of
pixel length 330 with entered distance 110 yields scale 3, and the polygon
of raw pixel shoelace area 9000 then measures 1000 square feet. -/
theorem c3_modal_scale :
    (∀ (st : AppState) (x1 y1 x2 y2 d : ℝ), st.calibrationLine = [x1, y1, x2, y2] → 0 < d →
      handleModalSubmit st d =
        ({ st with scale := Option.some (Real.sqrt ((x2 - x1) ^ 2 + (y2 - y1) ^ 2) / d),
                   isModalOpen := false, calibrationLine := [] }, true)) ∧
    (∀ (st : AppState) (d : ℝ), d ≤ 0 → handleModalSubmit st d = (st, false)) ∧
    (∃ stp : AppState, handleModalSubmit calibSt 110 = (stp, true) ∧
      stp.scale = Option.some 3 ∧ stp.calibrationLine = [] ∧
      ∃ pd : PolygonData,
        calculatePolygonData rect9000 stp.scale = Option.some pd ∧ pd.sqft = 1000) := by
  have hgen : ∀ (st : AppState) (x1 y1 x2 y2 d : ℝ),
      st.calibrationLine = [x1, y1, x2, y2] → 0 < d →
      handleModalSubmit st d =
        ({ st with scale := Option.some (Real.sqrt ((x2 - x1) ^ 2 + (y2 - y1) ^ 2) / d),
                   isModalOpen := false, calibrationLine := [] }, true) := by
    intro st x1 y1 x2 y2 d hline hd
    simp only [handleModalSubmit, hline, List.getD_cons_zero, List.getD_cons_succ]
    rw [if_neg (not_le.mpr hd)]
  have herr : ∀ (st : AppState) (d : ℝ), d ≤ 0 → handleModalSubmit st d = (st, false) := by
    intro st d hd
    simp only [handleModalSubmit]
    rw [if_pos hd]
  refine ⟨hgen, herr, ?_⟩
  have hc := hgen calibSt 0 0 330 0 110 rfl (by norm_num)
  have hsqrt : Real.sqrt (((330 : ℝ) - 0) ^ 2 + ((0 : ℝ) - 0) ^ 2) = 330 := by
    rw [show ((330 : ℝ) - 0) ^ 2 + ((0 : ℝ) - 0) ^ 2 = 330 ^ 2 by norm_num,
      Real.sqrt_sq (by norm_num)]
  refine ⟨_, hc, ?_, rfl, ?_⟩
  · show Option.some (Real.sqrt (((330 : ℝ) - 0) ^ 2 + ((0 : ℝ) - 0) ^ 2) / 110) =
      Option.some 3
    rw [hsqrt]
    norm_num
  · have hscale : ({ calibSt with
        scale := Option.some (Real.sqrt (((330 : ℝ) - 0) ^ 2 + ((0 : ℝ) - 0) ^ 2) / 110),
        isModalOpen := false, calibrationLine := [] } : AppState).scale = Option.some 3 := by
      show Option.some (Real.sqrt (((330 : ℝ) - 0) ^ 2 + ((0 : ℝ) - 0) ^ 2) / 110) =
        Option.some 3
      rw [hsqrt]
      norm_num
    rw [hscale]
    refine ⟨_, calculatePolygonData_eq rect9000 3 (by simp [rect9000]) (by norm_num), ?_⟩
    show |shoelaceSum rect9000 / 2| / (3 * 3) = 1000
    rw [rect9000_shoelace]
    norm_num

/-- Witness for C3 at the concrete fixed line `[0,0,330,0]` and the inputs
110 and −5. -/
theorem c3_modal_scale_witness :
    handleModalSubmit calibSt 110 =
      ({ calibSt with
          scale := Option.some (Real.sqrt (((330 : ℝ) - 0) ^ 2 + ((0 : ℝ) - 0) ^ 2) / 110),
          isModalOpen := false, calibrationLine := [] }, true) ∧
    handleModalSubmit calibSt (-5) = (calibSt, false) :=
  ⟨c3_modal_scale.1 calibSt 0 0 330 0 110 rfl (by norm_num),
    c3_modal_scale.2.1 calibSt (-5) (by norm_num)⟩

/-- C4: placing a new vertex within the 5-unit snap threshold of vertex 0
(with at least one prior vertex) appends a vertex whose coordinates exactly
equal vertex 0's; after finish, a drag-end of a vertex with index ≠ 0 that
lands within the threshold of vertex 0 sets that vertex exactly to vertex
0's coordinates; a drag-end of vertex 0 itself is never snapped. -/
theorem c4_snap_exact :
    (∀ (prev : List Point) (pos : Point), 0 < prev.length →
      hypot (pos.x - (vtx prev 0).x) (pos.y - (vtx prev 0).y) ≤ SNAP_THRESHOLD →
      addPlotPoint prev pos = prev ++ [vtx prev 0]) ∧
    (∀ (points : List Point) (index : ℕ) (pos : Point), index ≠ 0 → 0 < points.length →
      hypot (pos.x - (vtx points 0).x) (pos.y - (vtx points 0).y) ≤ SNAP_THRESHOLD →
      handlePointDragEnd points index pos = points.set index (vtx points 0)) ∧
    (∀ (points : List Point) (pos : Point),
      handlePointDragEnd points 0 pos = points.set 0 pos) := by
  refine ⟨?_, ?_, ?_⟩
  · intro prev pos hlen hsnap
    simp only [addPlotPoint]
    rw [if_pos hlen, if_pos hsnap]
  · intro points index pos hix hlen hsnap
    simp only [handlePointDragEnd]
    rw [if_pos ⟨hix, hlen⟩, if_pos hsnap]
  · intro points pos
    simp only [handlePointDragEnd]
    rw [if_neg (by simp)]

/-- Witness for C4 on concrete 3-4-5 snap inputs. -/
theorem c4_snap_exact_witness :
    addPlotPoint [⟨0, 0⟩] ⟨3, 4⟩ = [⟨0, 0⟩, ⟨0, 0⟩] ∧
    handlePointDragEnd [⟨0, 0⟩, ⟨7, 7⟩, ⟨8, 0⟩] 1 ⟨3, 4⟩ = [⟨0, 0⟩, ⟨0, 0⟩, ⟨8, 0⟩] ∧
    handlePointDragEnd [⟨0, 0⟩, ⟨7, 7⟩] 0 ⟨3, 4⟩ = [⟨3, 4⟩, ⟨7, 7⟩] := by
  have h5 : hypot ((3 : ℝ) - 0) ((4 : ℝ) - 0) ≤ SNAP_THRESHOLD := by
    rw [hypot_eval ((3 : ℝ) - 0) ((4 : ℝ) - 0) 5 (by norm_num) (by norm_num)]
    norm_num [SNAP_THRESHOLD]
  refine ⟨?_, ?_, c4_snap_exact.2.2 [⟨0, 0⟩, ⟨7, 7⟩] ⟨3, 4⟩⟩
  · have h1 := c4_snap_exact.1 [⟨0, 0⟩] ⟨3, 4⟩ (by norm_num) h5
    rw [h1]
    rfl
  · have h2 := c4_snap_exact.2.1 [⟨0, 0⟩, ⟨7, 7⟩, ⟨8, 0⟩] 1 ⟨3, 4⟩ (by norm_num) (by norm_num) h5
    rw [h2]
    rfl

lemma zeroScaleDoc_scale : zeroScaleDoc.getField "scale" = Json.jnum 0 := by
  simp [zeroScaleDoc, Json.getField, List.lookup]

lemma zeroScaleDoc_points : zeroScaleDoc.getField "plotPoints" = Json.jarr [] := by
  simp [zeroScaleDoc, Json.getField, List.lookup]

/-- C5 counterexample: the document `{plotPoints: [], scale: 0}` has `scale`
present and not a positive number, so per the claim the load must reject it;
but `0` is falsy in JavaScript, so `obj.scale && ...` skips the check and the
load succeeds (leaving the stored scale unchanged). -/
theorem c5_counterexample :
    zeroScaleDoc.getField "scale" ≠ Json.jundef ∧
    ¬ (zeroScaleDoc.getField "scale").isPositiveNum ∧
    (handleLoadChange baseSt zeroScaleDoc).2 = true ∧
    (handleLoadChange baseSt zeroScaleDoc).1.scale = baseSt.scale := by
  have h1 : ¬ (¬ Json.truthy zeroScaleDoc ∨ Json.isObjectType zeroScaleDoc = false) := by
    simp [zeroScaleDoc, Json.truthy, Json.isObjectType]
  have h2 : ¬ ((zeroScaleDoc.getField "plotPoints").isArr = false ∨
      (zeroScaleDoc.getField "plotPoints").arrElems.any (fun p => !validPointElem p) = true) := by
    rw [zeroScaleDoc_points]
    simp [Json.isArr, Json.arrElems]
  have h3 : ¬ ((zeroScaleDoc.getField "scale").truthy ∧
      ¬ (zeroScaleDoc.getField "scale").isPositiveNum) := by
    rw [zeroScaleDoc_scale]
    simp [Json.truthy]
  have hrun : handleLoadChange baseSt zeroScaleDoc =
      ({ baseSt with
          scale := baseSt.scale,
          plotPoints := [],
          isPlotFinished := false,
          results := Option.none,
          mode := Mode.drawing_plot,
          calibrationLine := [],
          snapHint := false }, true) := by
    unfold handleLoadChange
    rw [if_neg h1, if_neg h2, if_neg h3, zeroScaleDoc_points, zeroScaleDoc_scale,
      if_neg (by simp [Json.truthy])]
    rfl
  refine ⟨?_, ?_, ?_, ?_⟩
  · rw [zeroScaleDoc_scale]
    simp
  · rw [zeroScaleDoc_scale]
    simp [Json.isPositiveNum]
  · rw [hrun]
  · rw [hrun]

/-- C5 amended: the load rejects when the document is falsy or not of object
type, when `plotPoints` is not an array or an element lacks a numeric `x` or
`y` (the spec's `{"x":1}` example concretely rejects), or when `scale` is
present and truthy but not a positive number — a falsy `scale` value such as
`0` instead passes validation and is silently ignored; whenever the load
rejects, the state is returned exactly unchanged (all-or-nothing load). -/
theorem c5_load_amended :
    (∀ (st : AppState) (doc : Json),
      (handleLoadChange st doc).2 = false → (handleLoadChange st doc).1 = st) ∧
    (∀ (st : AppState) (doc : Json), ¬ doc.truthy ∨ doc.isObjectType = false →
      handleLoadChange st doc = (st, false)) ∧
    (∀ (st : AppState) (doc : Json),
      (doc.getField "plotPoints").isArr = false ∨
        (doc.getField "plotPoints").arrElems.any (fun p => !validPointElem p) = true →
      handleLoadChange st doc = (st, false)) ∧
    (∀ (st : AppState) (doc : Json),
      (doc.getField "scale").truthy → ¬ (doc.getField "scale").isPositiveNum →
      handleLoadChange st doc = (st, false)) ∧
    (∀ st : AppState, handleLoadChange st missingYDoc = (st, false)) := by
  refine ⟨?_, ?_, ?_, ?_, ?_⟩
  · intro st doc
    unfold handleLoadChange
    split_ifs
    all_goals first
      | (intro _; rfl)
      | (intro h; simp at h)
  · intro st doc h
    unfold handleLoadChange
    rw [if_pos h]
  · intro st doc h
    unfold handleLoadChange
    by_cases h1 : ¬ doc.truthy ∨ doc.isObjectType = false
    · rw [if_pos h1]
    · rw [if_neg h1, if_pos h]
  · intro st doc ht hp
    unfold handleLoadChange
    by_cases h1 : ¬ doc.truthy ∨ doc.isObjectType = false
    · rw [if_pos h1]
    · rw [if_neg h1]
      by_cases h2 : (doc.getField "plotPoints").isArr = false ∨
          (doc.getField "plotPoints").arrElems.any (fun p => !validPointElem p) = true
      · rw [if_pos h2]
      · rw [if_neg h2, if_pos ⟨ht, hp⟩]
  · intro st
    have hm : missingYDoc.getField "plotPoints" =
        Json.jarr [Json.jobj [("x", Json.jnum 1)]] := by
      simp [missingYDoc, Json.getField, List.lookup]
    have hbad : (missingYDoc.getField "plotPoints").isArr = false ∨
        (missingYDoc.getField "plotPoints").arrElems.any (fun p => !validPointElem p) = true := by
      rw [hm]
      right
      simp [Json.arrElems, validPointElem, List.lookup]
    have h1 : ¬ (¬ Json.truthy missingYDoc ∨ Json.isObjectType missingYDoc = false) := by
      simp [missingYDoc, Json.truthy, Json.isObjectType]
    unfold handleLoadChange
    rw [if_neg h1, if_pos hbad]

/-- Witness for the amended C5: the spec's missing-`y` document is rejected
with the state unchanged. -/
theorem c5_load_amended_witness :
    handleLoadChange baseSt missingYDoc = (baseSt, false) :=
  c5_load_amended.2.2.2.2 baseSt

/-- C6 counterexample: the scale-badge `Change` button enters calibration
mode but leaves the polygon vertices, results and finished flag intact, so
not every transition into calibration mode clears the polygon state. -/
theorem c6_counterexample :
    (changeButtonClick plotSt).mode = Mode.calibrating ∧
    (changeButtonClick plotSt).plotPoints ≠ [] ∧
    (changeButtonClick plotSt).results ≠ Option.none ∧
    (changeButtonClick plotSt).isPlotFinished = true := by
  refine ⟨rfl, ?_, ?_, rfl⟩
  · show plotSt.plotPoints ≠ []
    simp [plotSt]
  · show plotSt.results ≠ Option.none
    simp [plotSt]

/-- C6 amended: the calibrate button clears the polygon vertices, results,
finished flag, report image and calibration line while entering calibration
mode; the scale-badge `Change` button also enters calibration mode and
clears the line and drawing flag, but preserves the polygon vertices,
results and finished flag. -/
theorem c6_calibration_entry_amended :
    (∀ st : AppState,
      (calibrateButtonClick st).mode = Mode.calibrating ∧
      (calibrateButtonClick st).plotPoints = [] ∧
      (calibrateButtonClick st).results = Option.none ∧
      (calibrateButtonClick st).isPlotFinished = false ∧
      (calibrateButtonClick st).reportImage = false ∧
      (calibrateButtonClick st).calibrationLine = []) ∧
    (∀ st : AppState,
      (changeButtonClick st).mode = Mode.calibrating ∧
      (changeButtonClick st).calibrationLine = [] ∧
      (changeButtonClick st).isDrawing = false ∧
      (changeButtonClick st).plotPoints = st.plotPoints ∧
      (changeButtonClick st).results = st.results ∧
      (changeButtonClick st).isPlotFinished = st.isPlotFinished) := by
  exact ⟨fun st => ⟨rfl, rfl, rfl, rfl, rfl, rfl⟩, fun st => ⟨rfl, rfl, rfl, rfl, rfl, rfl⟩⟩

/-- Witness for the amended C2 at the concrete square and scale 1. -/
theorem c2_side_lengths_amended_witness :
    ∃ d : PolygonData,
      calculatePolygonData sqPoints (Option.some 1) = Option.some d ∧
      d.lengths.length = sqPoints.length ∧
      (∀ i, i < sqPoints.length → d.lengths.getD i 0 =
        pixelDist (vtx sqPoints i) (vtx sqPoints ((i + 1) % sqPoints.length)) / 1) ∧
      d.lengths.getD (sqPoints.length - 1) 0 =
        pixelDist (vtx sqPoints (sqPoints.length - 1)) (vtx sqPoints 0) / 1 :=
  c2_side_lengths_amended.1 sqPoints 1 (by rw [sq_length]; norm_num) one_ne_zero

lemma clamp_mem (v : ℝ) : 0.1 ≤ clamp v 0.1 10 ∧ clamp v 0.1 10 ≤ 10 := by
  unfold clamp
  exact ⟨le_max_left _ _, max_le (by norm_num) (min_le_left _ _)⟩

/-- C7: every wheel-zoom and every pinch-zoom update clamps the new zoom to
`[0.1, 10]` (the pinch update either keeps the old zoom — jitter deadzone or
zero start distance — or clamps `startZoom * (currentDistance/startDistance)`);
in particular a pinch starting at zoom 1 with a 50x distance ratio yields
exactly 10, not 50. -/
theorem c7_zoom_clamped :
    (∀ oldScale delta : ℝ,
      0.1 ≤ wheelZoomUpdate oldScale delta ∧ wheelZoomUpdate oldScale delta ≤ 10) ∧
    (∀ startDistance startScale lastDist newDist oldZoom : ℝ,
      0.1 ≤ oldZoom → oldZoom ≤ 10 →
      0.1 ≤ pinchMoveZoom startDistance startScale lastDist newDist oldZoom ∧
        pinchMoveZoom startDistance startScale lastDist newDist oldZoom ≤ 10) ∧
    pinchMoveZoom 10 1 0 500 1 = 10 := by
  refine ⟨?_, ?_, ?_⟩
  · intro oldScale delta
    exact clamp_mem _
  · intro startDistance startScale lastDist newDist oldZoom hlo hhi
    unfold pinchMoveZoom
    split_ifs
    · exact ⟨hlo, hhi⟩
    · exact clamp_mem _
    · exact ⟨hlo, hhi⟩
  · unfold pinchMoveZoom
    rw [if_neg (by rw [show |(500 : ℝ) - 0| = 500 by norm_num]; norm_num),
      if_pos (by norm_num)]
    unfold clamp
    rw [show (1 : ℝ) * (500 / 10) = 50 by norm_num,
      show min (10 : ℝ) 50 = 10 by norm_num [min_def],
      show max (0.1 : ℝ) 10 = 10 by norm_num [max_def]]

/-- Witness for C7 at the concrete pinch inputs (start distance 10, start
zoom 1, new distance 500). -/
theorem c7_zoom_clamped_witness :
    0.1 ≤ pinchMoveZoom 10 1 0 500 1 ∧ pinchMoveZoom 10 1 0 500 1 ≤ 10 :=
  c7_zoom_clamped.2.1 10 1 0 500 1 (by norm_num) (by norm_num)

/-- C8 counterexample: a single-finger session in `drawing_plot` mode that
moves well beyond 6 pixels (from `(0,0)` to `(100,100)`) still forwards a tap
at the start position on touch-end, because the `moved` flag is only ever set
inside the `calibrating && isDrawing` branch of `onTouchMove`; the forwarded
position then places a vertex. -/
theorem c8_counterexample :
    hypot ((100 : ℝ) - 0) ((100 : ℝ) - 0) > 6 ∧
    (touchEnd dragTapScenario 1100 0 0 0 0 1).2 = Option.some (⟨0, 0⟩ : Point) ∧
    addPlotPoint [⟨50, 50⟩] ⟨0, 0⟩ = [⟨50, 50⟩, ⟨0, 0⟩] := by
  have hscen : dragTapScenario = ⟨⟨true, true, false, 0, 0, 1000⟩, false, false, 0⟩ := by
    unfold dragTapScenario touchMoveSingle touchStartSingle initialTouchState
    rw [if_neg (by simp)]
  refine ⟨?_, ?_, ?_⟩
  · rw [hypot, show ((100 : ℝ) - 0) ^ 2 + ((100 : ℝ) - 0) ^ 2 = 20000 by norm_num,
      gt_iff_lt, show (6 : ℝ) = Real.sqrt 36 by
        rw [show (36 : ℝ) = 6 ^ 2 by norm_num, Real.sqrt_sq (by norm_num)]]
    exact Real.sqrt_lt_sqrt (by norm_num) (by norm_num)
  · rw [hscen]
    simp only [touchEnd]
    rw [if_neg (by simp), if_pos (by simp),
      if_neg (by norm_num : ¬ ((1000 : ℝ) = 0)),
      if_neg (by rw [TAP_GRACE_MS, TAP_MIN_MS]; push_neg; norm_num)]
    norm_num
  · unfold addPlotPoint
    rw [if_pos (by norm_num), if_neg]
    · rfl
    · show ¬ hypot ((⟨0, 0⟩ : Point).x - (vtx [⟨50, 50⟩] 0).x)
        ((⟨0, 0⟩ : Point).y - (vtx [⟨50, 50⟩] 0).y) ≤ SNAP_THRESHOLD
      show ¬ hypot ((0 : ℝ) - 50) ((0 : ℝ) - 50) ≤ SNAP_THRESHOLD
      rw [hypot, show ((0 : ℝ) - 50) ^ 2 + ((0 : ℝ) - 50) ^ 2 = 5000 by norm_num,
        SNAP_THRESHOLD, not_le, show (5 : ℝ) = Real.sqrt 25 by
          rw [show (25 : ℝ) = 5 ^ 2 by norm_num, Real.sqrt_sq (by norm_num)]]
      exact Real.sqrt_lt_sqrt (by norm_num) (by norm_num)

/-- C8 amended: on touch-end, the tap is suppressed when the pinch block is
set, when the session's `moved` flag is set, when a pinch joined within the
200 ms grace window after touch-start, or when the duration is below 50 ms;
however the `moved` flag is set only by moves handled in the
`calibrating && isDrawing` branch — a single-finger move in any other mode
(in particular `drawing_plot`) leaves the session untouched, so movement
beyond 6 pixels there does not suppress the tap; in the non-suppressed case
the original start position is forwarded through the coordinate transform. -/
theorem c8_tap_gating_amended :
    (∀ (ts : TouchState) (now rl rt sx sy sc : ℝ), ts.blockTap = true →
      (touchEnd ts now rl rt sx sy sc).2 = Option.none) ∧
    (∀ (ts : TouchState) (now rl rt sx sy sc : ℝ), ts.session.moved = true →
      (touchEnd ts now rl rt sx sy sc).2 = Option.none) ∧
    (∀ (ts : TouchState) (now rl rt sx sy sc : ℝ), ts.session.startTime ≠ 0 →
      (ts.pinchLastStart ≥ ts.session.startTime ∧
        ts.pinchLastStart - ts.session.startTime ≤ TAP_GRACE_MS) ∨
        now - ts.session.startTime < TAP_MIN_MS →
      (touchEnd ts now rl rt sx sy sc).2 = Option.none) ∧
    (∀ (ts : TouchState) (mode : Mode) (isDrawing : Bool) (cx cy : ℝ),
      ¬ (mode = Mode.calibrating ∧ isDrawing = true) →
      touchMoveSingle ts mode isDrawing cx cy = ts) ∧
    (∀ (ts : TouchState) (now rl rt sx sy sc : ℝ),
      ts.blockTap = false → ts.session.active = true → ts.session.single = true →
      ts.session.moved = false → ts.session.startTime ≠ 0 →
      ¬ (ts.pinchLastStart ≥ ts.session.startTime ∧
          ts.pinchLastStart - ts.session.startTime ≤ TAP_GRACE_MS) →
      ¬ (now - ts.session.startTime < TAP_MIN_MS) →
      (touchEnd ts now rl rt sx sy sc).2 =
        Option.some ⟨(ts.session.startClientX - rl - sx) / sc,
                     (ts.session.startClientY - rt - sy) / sc⟩) := by
  refine ⟨?_, ?_, ?_, ?_, ?_⟩
  · intro ts now rl rt sx sy sc hb
    simp only [touchEnd]
    rw [if_pos hb]
  · intro ts now rl rt sx sy sc hm
    simp only [touchEnd]
    by_cases hb : ts.blockTap = true
    · rw [if_pos hb]
    · rw [if_neg hb, if_neg (by rw [hm]; simp)]
  · intro ts now rl rt sx sy sc hst hcond
    simp only [touchEnd]
    by_cases hb : ts.blockTap = true
    · rw [if_pos hb]
    · rw [if_neg hb]
      by_cases hsess : ts.session.active = true ∧ ts.session.single = true ∧
          ts.session.moved = false
      · rw [if_pos hsess, if_neg hst, if_pos hcond]
      · rw [if_neg hsess]
  · intro ts mode isDrawing cx cy hmode
    unfold touchMoveSingle
    rw [if_neg hmode]
  · intro ts now rl rt sx sy sc hb ha hs hm hst hpw hdur
    simp only [touchEnd]
    rw [if_neg (by rw [hb]; simp), if_pos ⟨ha, hs, hm⟩, if_neg hst,
      if_neg (not_or.mpr ⟨hpw, hdur⟩)]

/-- Witness for the amended C8: a clean 100 ms tap at client `(5,7)` is
forwarded through the identity transform. -/
theorem c8_tap_gating_amended_witness :
    (touchEnd validTapState 1100 0 0 0 0 1).2 =
      Option.some ⟨(validTapState.session.startClientX - 0 - 0) / 1,
                   (validTapState.session.startClientY - 0 - 0) / 1⟩ :=
  c8_tap_gating_amended.2.2.2.2 validTapState 1100 0 0 0 0 1 rfl rfl rfl rfl
    (by norm_num [validTapState])
    (by rw [validTapState, TAP_GRACE_MS]; push_neg; intro h; norm_num at h)
    (by norm_num [validTapState, TAP_MIN_MS])

lemma shotokRect_shoelace : shoelaceSum shotokRect = 871.2 := by
  simp only [shoelaceSum, shotokRect, List.length_cons, List.length_nil]
  norm_num [List.range_succ, cross, vtx, List.getD_cons_zero, List.getD_cons_succ]

lemma kathaRect_shoelace : shoelaceSum kathaRect = 1440 := by
  simp only [shoelaceSum, kathaRect, List.length_cons, List.length_nil]
  norm_num [List.range_succ, cross, vtx, List.getD_cons_zero, List.getD_cons_succ]

/-- C9: every computed result has `shotok = sqft / 435.6` and
`katha = sqft / 720`; a polygon of square-feet area exactly `435.6` yields
`shotok = 1`, and one of area exactly `720` yields `katha = 1`. -/
theorem c9_unit_conversion :
    (∀ (points : List Point) (scale : Option ℝ) (d : PolygonData),
      calculatePolygonData points scale = Option.some d →
      d.shotok = d.sqft / SHOTOK_SQ_FT ∧ d.katha = d.sqft / KATHA_SQ_FT) ∧
    (∃ d : PolygonData,
      calculatePolygonData shotokRect (Option.some 1) = Option.some d ∧
      d.sqft = SHOTOK_SQ_FT ∧ d.shotok = 1) ∧
    (∃ d : PolygonData,
      calculatePolygonData kathaRect (Option.some 1) = Option.some d ∧
      d.sqft = KATHA_SQ_FT ∧ d.katha = 1) := by
  refine ⟨?_, ?_, ?_⟩
  · intro points scale d h
    cases scale with
    | none => exact absurd h (by simp [calculatePolygonData])
    | some s =>
      by_cases h3 : points.length < 3
      · rw [calculatePolygonData_short points s h3] at h
        exact absurd h (by simp)
      · by_cases hs : s = 0
        · rw [hs, calculatePolygonData_zero] at h
          exact absurd h (by simp)
        · rw [calculatePolygonData_eq points s (by omega) hs] at h
          have hd := Option.some.inj h
          subst hd
          exact ⟨rfl, rfl⟩
  · have habs : |shoelaceSum shotokRect / 2| = 435.6 := by
      rw [shotokRect_shoelace, show (871.2 : ℝ) / 2 = 435.6 by norm_num,
        abs_of_nonneg (by norm_num)]
    refine ⟨_, calculatePolygonData_eq shotokRect 1 (by simp [shotokRect]) one_ne_zero, ?_, ?_⟩
    · show |shoelaceSum shotokRect / 2| / (1 * 1) = SHOTOK_SQ_FT
      rw [habs, SHOTOK_SQ_FT]
      norm_num
    · show |shoelaceSum shotokRect / 2| / (1 * 1) / SHOTOK_SQ_FT = 1
      rw [habs, SHOTOK_SQ_FT]
      norm_num
  · have habs : |shoelaceSum kathaRect / 2| = 720 := by
      rw [kathaRect_shoelace, show (1440 : ℝ) / 2 = 720 by norm_num,
        abs_of_nonneg (by norm_num)]
    refine ⟨_, calculatePolygonData_eq kathaRect 1 (by simp [kathaRect]) one_ne_zero, ?_, ?_⟩
    · show |shoelaceSum kathaRect / 2| / (1 * 1) = KATHA_SQ_FT
      rw [habs, KATHA_SQ_FT]
      norm_num
    · show |shoelaceSum kathaRect / 2| / (1 * 1) / KATHA_SQ_FT = 1
      rw [habs, KATHA_SQ_FT]
      norm_num

/-- Witness for C9 at the concrete square and scale 1. -/
theorem c9_unit_conversion_witness :
    ∃ d : PolygonData,
      calculatePolygonData sqPoints (Option.some 1) = Option.some d ∧
      d.shotok = d.sqft / SHOTOK_SQ_FT ∧ d.katha = d.sqft / KATHA_SQ_FT := by
  have h := calculatePolygonData_eq sqPoints 1 (by rw [sq_length]; norm_num) one_ne_zero
  exact ⟨_, h, c9_unit_conversion.1 sqPoints (Option.some 1) _ h⟩

lemma foldl_add_eq_listSum (l : List ℝ) : l.foldl (· + ·) 0 = l.sum := by
  have key : ∀ (a : ℝ) (t : List ℝ), t.foldl (· + ·) a = a + t.sum := by
    intro a t
    induction t generalizing a with
    | nil => simp
    | cons x t ih =>
      rw [List.foldl_cons, ih, List.sum_cons]
      ring
  simpa using key 0 l

lemma sideLengths_concat (points : List Point) (s : ℝ) (h : 1 ≤ points.length) :
    sideLengths points s =
      ((List.range (points.length - 1)).map
        (fun i => pixelDist (vtx points i) (vtx points ((i + 1) % points.length)) / s)) ++
      [pixelDist (vtx points (points.length - 1)) (vtx points 0) / s] := by
  obtain ⟨m, hm⟩ : ∃ m, points.length = m + 1 := ⟨points.length - 1, by omega⟩
  unfold sideLengths
  rw [hm, List.range_succ, List.map_append]
  simp only [List.map_cons, List.map_nil, Nat.add_sub_cancel, Nat.mod_self]

/-- C10: for a measured polygon of `n ≥ 3` vertices, the displayed side list
is `lengths.slice(0, -1)` — it has only `n − 1` entries — and the displayed
perimeter sums only those entries, so the closing edge back to vertex 0 is
excluded and the reported perimeter is strictly less than the sum of all `n`
edge lengths whenever the closing edge has positive length. -/
theorem c10_perimeter_excludes_closing :
    ∀ (points : List Point) (s : ℝ) (d : PolygonData), 3 ≤ points.length →
      calculatePolygonData points (Option.some s) = Option.some d →
      (displayedSides d.lengths).length = points.length - 1 ∧
      displayedPerimeter d.lengths +
          pixelDist (vtx points (points.length - 1)) (vtx points 0) / s = d.lengths.sum ∧
      (0 < pixelDist (vtx points (points.length - 1)) (vtx points 0) / s →
        displayedPerimeter d.lengths < d.lengths.sum) := by
  intro points s d h3 h
  have hs : s ≠ 0 := by
    intro h0
    rw [h0, calculatePolygonData_zero] at h
    exact absurd h (by simp)
  rw [calculatePolygonData_eq points s h3 hs] at h
  have hd := Option.some.inj h
  subst hd
  have hconcat := sideLengths_concat points s (by omega)
  refine ⟨?_, ?_, ?_⟩
  · show (displayedSides (sideLengths points s)).length = points.length - 1
    rw [displayedSides, hconcat, List.dropLast_concat]
    simp
  · show displayedPerimeter (sideLengths points s) +
        pixelDist (vtx points (points.length - 1)) (vtx points 0) / s =
        (sideLengths points s).sum
    rw [displayedPerimeter, hconcat, List.dropLast_concat, foldl_add_eq_listSum,
      List.sum_append]
    simp
  · intro hpos
    show displayedPerimeter (sideLengths points s) < (sideLengths points s).sum
    rw [displayedPerimeter, hconcat, List.dropLast_concat, foldl_add_eq_listSum,
      List.sum_append, List.sum_cons, List.sum_nil]
    linarith

/-- Witness for C10 at the concrete square and scale 1 (closing edge 10,
perimeter 30 < total 40). -/
theorem c10_perimeter_excludes_closing_witness :
    ∃ d : PolygonData,
      calculatePolygonData sqPoints (Option.some 1) = Option.some d ∧
      displayedPerimeter d.lengths + 10 = d.lengths.sum ∧
      displayedPerimeter d.lengths < d.lengths.sum := by
  have h := calculatePolygonData_eq sqPoints 1 (by rw [sq_length]; norm_num) one_ne_zero
  have hthm := c10_perimeter_excludes_closing sqPoints 1 _ (by rw [sq_length]; norm_num) h
  have hv : vtx sqPoints (sqPoints.length - 1) = ⟨0, 10⟩ := by
    rw [sq_length]
    rfl
  have hclose : pixelDist (vtx sqPoints (sqPoints.length - 1)) (vtx sqPoints 0) / 1 = 10 := by
    rw [hv, show vtx sqPoints 0 = ⟨0, 0⟩ from rfl,
      pixelDist_eval (⟨0, 10⟩ : Point) (⟨0, 0⟩ : Point) 10 (by norm_num) (by norm_num)]
    norm_num
  refine ⟨_, h, ?_, hthm.2.2 (by rw [hclose]; norm_num)⟩
  have h2 := hthm.2.1
  rw [hclose] at h2
  exact h2

end

end MouzaMap
